import Mathlib

/-!
# amicleaner: reachability and garbage computation of `main`

A shallow embedding of `src/main.go` (the whole program is the function `main`).

* A Go `map[string]V` is an association list with pairwise distinct keys
  (`GoMap V`); `m[k] = v` is `GoMap.set`, `delete(m, k)` is `GoMap.delete`,
  `m[k]` read with the zero value for a missing key is `GoMap.get?` followed by `getD`.
* The order in which `range` walks a map is unspecified in Go. The two subtraction
  loops do not depend on it; for the two executor loops the order is an explicit
  argument (`order`) of `main`.
* The AWS collaborators are represented by what they return (`Cloud`); the outcome of
  the n-th write call (`DeregisterImage` / `DeleteSnapshot`) is `outcome n`.
* Everything `main` does that is visible from outside is recorded as a list of
  `Event`s, in program order, together with the exit code.
* Pointer fields of the SDK records (`*i.ImageId`, `*e.Ebs.VolumeId`, ...) are taken
  to be present, as in the data model of the specification.
-/

namespace AmiCleaner

/-! ## Go maps with string keys -/

/-- A Go `map[string]V`, as an association list. -/
abbrev GoMap (V : Type) := List (String × V)

namespace GoMap

variable {V : Type}

/-- Map read `v, ok := m[k]`. -/
def get? : GoMap V → String → Option V
  | [], _ => none
  | (k1, v) :: rest, k => if k1 = k then some v else get? rest k

/-- Map write `m[k] = v`: replaces the value of an existing key, else adds the key. -/
def set : GoMap V → String → V → GoMap V
  | [], k, v => [(k, v)]
  | (k1, v1) :: rest, k, v => if k1 = k then (k1, v) :: rest else (k1, v1) :: set rest k v

/-- Builtin `delete(m, k)`. -/
def delete (m : GoMap V) (k : String) : GoMap V :=
  m.filter (fun e => decide (e.1 ≠ k))

/-- The keys of the map. -/
def keys (m : GoMap V) : List String := m.map Prod.fst

/-- Builtin `len(m)`. -/
def len (m : GoMap V) : Nat := m.length

/-- The loop `for k := range ks { delete(m, k) }`, over the keys `ks` of another map. -/
def deleteAll (m : GoMap V) (ks : List String) : GoMap V :=
  ks.foldl delete m

end GoMap

/-! ## Records returned by the provider -/

/-- An element of `Reservation.Instances`: identifier, AMI, lifecycle state (code and
name) and the volume identifiers of its block-device mappings, in order. -/
structure Instance where
  instanceId : String
  imageId : String
  stateCode : Int
  stateName : String
  volumeIds : List String
deriving DecidableEq, Repr

/-- An element of `DescribeInstancesOutput.Reservations`. -/
structure Reservation where
  reservationId : String
  instances : List Instance
deriving DecidableEq, Repr

/-- An element of `DescribeLaunchTemplateVersionsOutput.LaunchTemplateVersions`. -/
structure LaunchTemplateVersion where
  launchTemplateId : String
  launchTemplateName : String
  imageId : String
deriving DecidableEq, Repr

/-- An element of `DescribeImagesOutput.Images`: identifier, name and the snapshot
identifiers of its block-device mappings, in order. -/
structure Image where
  imageId : String
  name : String
  snapshotIds : List String
deriving DecidableEq, Repr

/-- An element of `DescribeSnapshotsOutput.Snapshots`; `tags` are the (key, value) pairs
of `s.Tags`, in order. -/
structure Snapshot where
  snapshotId : String
  volumeId : String
  tags : List (String × String)
deriving DecidableEq, Repr

/-- What the provider answers to the one configuration load and the five read queries
of `main`; an error carries its message. -/
structure Cloud where
  loadDefaultConfig : Except String Unit
  getCallerIdentity : Except String String
  describeInstances : Except String (List Reservation)
  describeLaunchTemplateVersions : Except String (List LaunchTemplateVersion)
  describeImages : Except String (List Image)
  describeSnapshots : Except String (List Snapshot)

/-! ## Observable behaviour -/

/-- One write to standard output. Text is kept verbatim; a map printed with the default
format is kept as the map itself. -/
inductive Chunk where
  | text (s : String)
  | listMap (label : String) (m : GoMap (List String))
  | stringMap (label : String) (m : GoMap String)
  | tagMap (m : GoMap String)
deriving DecidableEq, Repr

/-- One externally visible action of `main`. -/
inductive Event where
  | stdout (c : Chunk)
  | log (msg : String)
  | deregisterImage (imageId : String)
  | deleteSnapshot (snapshotId : String)
deriving DecidableEq, Repr

/-- A complete execution: the events in program order and the exit code
(0 for a return from `main`, 1 after `log.Fatalf`). -/
structure Run where
  events : List Event
  exitCode : Nat
deriving DecidableEq, Repr

/-- The write operations of the provider API. -/
inductive WriteOp where
  | deregisterImage (imageId : String)
  | deleteSnapshot (snapshotId : String)
deriving DecidableEq, Repr

/-- The write operation an event stands for, if any. -/
def Event.writeOp? : Event → Option WriteOp
  | .deregisterImage a => some (.deregisterImage a)
  | .deleteSnapshot s => some (.deleteSnapshot s)
  | _ => none

/-- The trace of write operations of a run. -/
def Run.writes (r : Run) : List WriteOp := r.events.filterMap Event.writeOp?

/-- The chunks written to standard output by a run. -/
def Run.stdout (r : Run) : List Chunk :=
  r.events.filterMap (fun e => match e with | .stdout c => some c | _ => none)

/-- The messages written to the log stream by a run. -/
def Run.logged (r : Run) : List String :=
  r.events.filterMap (fun e => match e with | .log s => some s | _ => none)

/-- Output produced under `if verbose { ... }`. -/
def whenVerbose (verbose : Bool) (cs : List Chunk) : List Chunk :=
  if verbose then cs else []

/-! ## Instance pass (lines 63-101) -/

/-- The state threaded through the instance pass. -/
structure InstanceState where
  knownAMIs : GoMap (List String)
  knownVols : GoMap String
  out : List Chunk
deriving DecidableEq, Repr

/-- The state of the loop over `i.BlockDeviceMappings`. -/
structure VolumeState where
  usedVols : List String
  knownVols : GoMap String
  out : List Chunk
deriving DecidableEq, Repr

/-- Body of `for _, e := range i.BlockDeviceMappings`. -/
def volumeStep (verbose : Bool) (instanceId : String) (st : VolumeState) (vol : String) :
    VolumeState :=
  { usedVols := st.usedVols ++ [vol]
    knownVols := st.knownVols.set vol instanceId
    out := st.out ++ whenVerbose verbose [.text ("     vol = " ++ vol ++ "\n")] }

/-- The test `state := *i.State.Code & 0xff; state != 32 && state != 48`. For a two's
complement integer the mask with `0xff` is the remainder modulo 256. -/
def holdsImage (stateCode : Int) : Bool :=
  let state := stateCode % 256
  decide (state ≠ 32) && decide (state ≠ 48)

/-- Body of `for _, i := range r.Instances`. -/
def instanceStep (verbose : Bool) (st : InstanceState) (i : Instance) : InstanceState :=
  let out1 := st.out ++
    whenVerbose verbose [.text ("   " ++ i.instanceId ++ ": ami = " ++ i.imageId ++ "\n")]
  let vs := i.volumeIds.foldl (volumeStep verbose i.instanceId)
    { usedVols := [], knownVols := st.knownVols, out := out1 }
  if holdsImage i.stateCode then
    { knownAMIs := st.knownAMIs.set i.imageId vs.usedVols
      knownVols := vs.knownVols
      out := vs.out }
  else
    { knownAMIs := st.knownAMIs
      knownVols := vs.knownVols
      out := vs.out ++ whenVerbose verbose [.text ("   *** ignored, state = " ++ i.stateName)] }

/-- Body of `for _, r := range instances.Reservations`. -/
def reservationStep (verbose : Bool) (st : InstanceState) (r : Reservation) : InstanceState :=
  let header : List Chunk :=
    [.text ("Reservation ID: " ++ r.reservationId ++ "\n"), .text "Instance IDs:\n"]
  let st1 : InstanceState :=
    { knownAMIs := st.knownAMIs
      knownVols := st.knownVols
      out := st.out ++ whenVerbose verbose header }
  let st2 := r.instances.foldl (instanceStep verbose) st1
  { knownAMIs := st2.knownAMIs
    knownVols := st2.knownVols
    out := st2.out ++ whenVerbose verbose [.text "\n"] }

/-- The instance pass: `knownAMIs` and `knownVols` start empty. -/
def instancePass (verbose : Bool) (rs : List Reservation) : InstanceState :=
  rs.foldl (reservationStep verbose) { knownAMIs := [], knownVols := [], out := [] }

/-! ## Launch-template pass (lines 112-120) -/

/-- The state threaded through the launch-template pass. -/
structure TemplateState where
  knownAMIs : GoMap (List String)
  out : List Chunk
deriving DecidableEq, Repr

/-- Body of `for _, p := range profiles.LaunchTemplateVersions`:
`knownAMIs[imageID] = append(knownAMIs[imageID], *p.LaunchTemplateName)`. -/
def templateStep (verbose : Bool) (st : TemplateState) (p : LaunchTemplateVersion) :
    TemplateState :=
  let imageID := p.imageId
  { knownAMIs :=
      st.knownAMIs.set imageID (((st.knownAMIs.get? imageID).getD []) ++ [p.launchTemplateName])
    out := st.out ++ whenVerbose verbose
      [.text ("Template ID: " ++ p.launchTemplateId ++ " name = " ++ p.launchTemplateName ++
        ", image = " ++ imageID ++ "\n")] }

/-- The launch-template pass, started from the map left by the instance pass. -/
def templatePass (verbose : Bool) (ps : List LaunchTemplateVersion)
    (knownAMIs : GoMap (List String)) : TemplateState :=
  ps.foldl (templateStep verbose) { knownAMIs := knownAMIs, out := [] }

/-! ## Image pass (lines 131-152) -/

/-- The state threaded through the image pass. -/
structure ImageState where
  allAMIs : GoMap String
  knownSnaps : GoMap String
  out : List Chunk
deriving DecidableEq, Repr

/-- Body of `for _, e := range a.BlockDeviceMappings`:
`knownSnaps[*e.Ebs.SnapshotId] = *a.ImageId`. -/
def snapshotRefStep (verbose : Bool) (imageId : String) (st : ImageState) (snap : String) :
    ImageState :=
  { allAMIs := st.allAMIs
    knownSnaps := st.knownSnaps.set snap imageId
    out := st.out ++ whenVerbose verbose [.text ("     snap = " ++ snap ++ "\n")] }

/-- Body of `for _, a := range amis.Images`. -/
def imageStep (verbose : Bool) (st : ImageState) (a : Image) : ImageState :=
  let st1 : ImageState :=
    { allAMIs := st.allAMIs.set a.imageId a.name
      knownSnaps := st.knownSnaps
      out := st.out ++ whenVerbose verbose
        [.text ("Image ID: " ++ a.imageId ++ " name = " ++ a.name ++ "\n")] }
  let st2 := a.snapshotIds.foldl (snapshotRefStep verbose a.imageId) st1
  { allAMIs := st2.allAMIs
    knownSnaps := st2.knownSnaps
    out := st2.out ++ whenVerbose verbose [.text "\n"] }

/-- The image pass: `allAMIs` and `knownSnaps` start empty. -/
def imagePass (verbose : Bool) (images : List Image) : ImageState :=
  images.foldl (imageStep verbose) { allAMIs := [], knownSnaps := [], out := [] }

/-! ## Snapshot pass (lines 170-189) -/

/-- The state threaded through the snapshot pass. -/
structure SnapshotState where
  allSnaps : GoMap String
  out : List Chunk
deriving DecidableEq, Repr

/-- The loop `for _, t := range s.Tags { tags[*t.Key] = *t.Value }`. -/
def tagsOf (s : Snapshot) : GoMap String :=
  s.tags.foldl (fun m t => m.set t.1 t.2) []

/-- Body of `for _, s := range snaps.Snapshots`. -/
def snapshotStep (verbose : Bool) (st : SnapshotState) (s : Snapshot) : SnapshotState :=
  let tags := tagsOf s
  { allSnaps := st.allSnaps.set s.snapshotId s.volumeId
    out := st.out ++ whenVerbose verbose
      [.text ("Snapshot ID: " ++ s.snapshotId ++ " name = " ++ s.volumeId ++ "\n"),
       .tagMap tags, .text "\n"] }

/-- The snapshot pass: `allSnaps` starts empty. -/
def snapshotPass (verbose : Bool) (snaps : List Snapshot) : SnapshotState :=
  snaps.foldl (snapshotStep verbose) { allSnaps := [], out := [] }

/-! ## Reporting and execution (lines 198-236) -/

/-- The block printed under `if verbose || dryRun`. -/
def summary (knownAMIs : GoMap (List String)) (knownVols knownSnaps allAMIs allSnaps : GoMap String) :
    List Chunk :=
  [.listMap "known AMIs" knownAMIs, .stringMap "known vols" knownVols,
   .stringMap "known snaps" knownSnaps, .text "\n",
   .stringMap "remaining AMIs" allAMIs, .stringMap "remaining snaps" allSnaps, .text "\n"]

/-- Body of `for _, a := range allAMIs`: the call, then the line reporting its outcome
(`ok` means `err == nil`). -/
def deregisterAttempt (ok : Bool) (a : String) : List Event :=
  [Event.deregisterImage a,
   if ok then Event.stdout (.text ("deregistered " ++ a ++ "\n"))
   else Event.log ("failed to deregister AMI " ++ a ++ "\n")]

/-- The loop `for _, a := range allAMIs`, over the entries in the order the map is walked;
`a` is the second component of the entry (the loop discards the first). `n` is the number of
write calls issued so far. -/
def deregisterLoop (outcome : Nat → Bool) : Nat → List (String × String) → List Event
  | _, [] => []
  | n, (_, a) :: rest => deregisterAttempt (outcome n) a ++ deregisterLoop outcome (n + 1) rest

/-- Body of `for _, s := range allSnaps`: the call, then the line reporting its outcome. -/
def deleteAttempt (ok : Bool) (s : String) : List Event :=
  [Event.deleteSnapshot s,
   if ok then Event.stdout (.text ("deleted " ++ s ++ "\n"))
   else Event.log ("failed to delete snapshot " ++ s ++ "\n")]

/-- The loop `for _, s := range allSnaps`, over the entries in the order the map is walked;
`s` is the second component of the entry (the loop discards the first). -/
def deleteLoop (outcome : Nat → Bool) : Nat → List (String × String) → List Event
  | _, [] => []
  | n, (_, s) :: rest => deleteAttempt (outcome n) s ++ deleteLoop outcome (n + 1) rest

/-- Lines 198-236: the summary, the dry-run guard, the empty guard and the two loops.
`amiOrder` and `snapOrder` give the order in which `range` walks the two maps. -/
def execute (dryRun verbose : Bool) (knownAMIs : GoMap (List String))
    (knownVols knownSnaps allAMIs allSnaps : GoMap String)
    (amiOrder snapOrder : GoMap String → List (String × String)) (outcome : Nat → Bool) :
    List Event :=
  let shown : List Event :=
    if verbose || dryRun then
      (summary knownAMIs knownVols knownSnaps allAMIs allSnaps).map Event.stdout
    else []
  if dryRun then
    shown ++ [.stdout (.text "dry run only -- nothing deleted\n")]
  else if allAMIs.len = 0 ∧ allSnaps.len = 0 then
    shown ++ [.stdout (.text "nothing to delete\n")]
  else
    let amis := amiOrder allAMIs
    shown ++ deregisterLoop outcome 0 amis ++ deleteLoop outcome amis.length (snapOrder allSnaps)

/-! ## The program -/

/-- The text the standard logger writes for a formatted message (after its header): the
message, with a newline appended when the message is empty or does not end in one. -/
def logText (msg : String) : String :=
  if msg.data.getLast? = some (Char.ofNat 10) then msg else msg ++ "\n"

/-- The effect of `log.Fatalf` after the events `pre`: the formatted message `msg` is logged
and the process exits with status 1. -/
def fatal (pre : List Event) (msg : String) : Run :=
  { events := pre ++ [.log (logText msg)], exitCode := 1 }

/-- The reachable set: `knownAMIs` after the instance pass and the launch-template pass. -/
def knownAMIs (verbose : Bool) (rs : List Reservation) (ps : List LaunchTemplateVersion) :
    GoMap (List String) :=
  (templatePass verbose ps (instancePass verbose rs).knownAMIs).knownAMIs

/-- The remaining AMIs: `allAMIs` after `for a := range knownAMIs { delete(allAMIs, a) }`. -/
def garbageAMIs (verbose : Bool) (rs : List Reservation) (ps : List LaunchTemplateVersion)
    (images : List Image) : GoMap String :=
  (imagePass verbose images).allAMIs.deleteAll (knownAMIs verbose rs ps).keys

/-- The remaining snapshots: `allSnaps` after `for s := range knownSnaps { delete(allSnaps, s) }`. -/
def garbageSnaps (verbose : Bool) (images : List Image) (snaps : List Snapshot) : GoMap String :=
  (snapshotPass verbose snaps).allSnaps.deleteAll (imagePass verbose images).knownSnaps.keys

/-- The function `main`, with the parsed flags `dryRun`, `verbose` and `region`. -/
def main (dryRun verbose : Bool) (region : String) (cloud : Cloud)
    (amiOrder snapOrder : GoMap String → List (String × String)) (outcome : Nat → Bool) : Run :=
  match cloud.loadDefaultConfig with
  | .error err => fatal [] ("unable to load SDK config, " ++ err)
  | .ok _ =>
  match cloud.getCallerIdentity with
  | .error err => fatal [] ("retrieving account: " ++ err ++ "\n")
  | .ok accountID =>
  let out0 := whenVerbose verbose
    [.text ("[searching account " ++ accountID ++ " in region " ++ region ++ "]\n" ++ "\n")]
  match cloud.describeInstances with
  | .error err => fatal (out0.map Event.stdout) ("retrieving instances: " ++ err ++ "\n")
  | .ok rs =>
  let ist := instancePass verbose rs
  let out1 := out0 ++ ist.out
  match cloud.describeLaunchTemplateVersions with
  | .error err => fatal (out1.map Event.stdout) ("retrieving launch templates: " ++ err ++ "\n")
  | .ok ps =>
  let tst := templatePass verbose ps ist.knownAMIs
  let out2 := out1 ++ tst.out
  match cloud.describeImages with
  | .error err => fatal (out2.map Event.stdout) ("retrieving AMIs: " ++ err ++ "\n")
  | .ok images =>
  let imst := imagePass verbose images
  let out3 := out2 ++ imst.out
  let allAMIs := imst.allAMIs.deleteAll tst.knownAMIs.keys
  match cloud.describeSnapshots with
  | .error err => fatal (out3.map Event.stdout) ("retrieving snapshots: " ++ err ++ "\n")
  | .ok snaps =>
  let sst := snapshotPass verbose snaps
  let out4 := out3 ++ sst.out
  let allSnaps := sst.allSnaps.deleteAll imst.knownSnaps.keys
  { events := out4.map Event.stdout ++
      execute dryRun verbose tst.knownAMIs ist.knownVols imst.knownSnaps allAMIs allSnaps
        amiOrder snapOrder outcome
    exitCode := 0 }

/-- A provider whose configuration load and five queries all succeed. -/
def Cloud.ok (accountID : String) (rs : List Reservation) (ps : List LaunchTemplateVersion)
    (images : List Image) (snaps : List Snapshot) : Cloud :=
  { loadDefaultConfig := .ok ()
    getCallerIdentity := .ok accountID
    describeInstances := .ok rs
    describeLaunchTemplateVersions := .ok ps
    describeImages := .ok images
    describeSnapshots := .ok snaps }

/-! ## Auxiliary definitions used in the statements -/

/-- The names of the template versions that reference the AMI `a`, in order. -/
def templateNames (ps : List LaunchTemplateVersion) (a : String) : List String :=
  (ps.filter (fun p => decide (p.imageId = a))).map (fun p => p.launchTemplateName)

/-- Scenario of the specification: instance I1 (state code 16, running) uses AMI A1 via
volume V1. -/
def scenarioReservations : List Reservation :=
  [{ reservationId := "R1"
     instances := [{ instanceId := "I1", imageId := "A1", stateCode := 16,
                     stateName := "running", volumeIds := ["V1"] }] }]

/-- Scenario of the specification: snapshot S1 backs A1, snapshot S2 backs A2. -/
def scenarioImages : List Image :=
  [{ imageId := "A1", name := "image-one", snapshotIds := ["S1"] },
   { imageId := "A2", name := "image-two", snapshotIds := ["S2"] }]

/-- Scenario of the specification: the owned snapshots S1 and S2. -/
def scenarioSnapshots : List Snapshot :=
  [{ snapshotId := "S1", volumeId := "V1", tags := [] },
   { snapshotId := "S2", volumeId := "V2", tags := [] }]

/-- Two instances of the same AMI A1: I1 running (code 16) and I2 terminated (code 48). -/
def sharedImageReservations : List Reservation :=
  [{ reservationId := "R1"
     instances := [{ instanceId := "I1", imageId := "A1", stateCode := 16,
                     stateName := "running", volumeIds := ["V1"] },
                   { instanceId := "I2", imageId := "A1", stateCode := 48,
                     stateName := "terminated", volumeIds := [] }] }]

/-- Scenario of the specification: instance I2 (state code 48, terminated) uses AMI A3;
next to it a running instance of AMI A1 whose state code has bits set above the low byte. -/
def terminatedReservations : List Reservation :=
  [{ reservationId := "R2"
     instances := [{ instanceId := "I2", imageId := "A3", stateCode := 48,
                     stateName := "terminated", volumeIds := ["V3"] },
                   { instanceId := "I1", imageId := "A1", stateCode := 256 + 16,
                     stateName := "running", volumeIds := ["V1"] }] }]

/-- Two launch-template versions of the same AMI A1 and one of AMI A4. -/
def sampleTemplates : List LaunchTemplateVersion :=
  [{ launchTemplateId := "lt-1", launchTemplateName := "web", imageId := "A1" },
   { launchTemplateId := "lt-2", launchTemplateName := "batch", imageId := "A4" },
   { launchTemplateId := "lt-1", launchTemplateName := "web", imageId := "A1" }]

/-- A provider that owns one unreferenced AMI (identifier ami-0a1, name nightly-build) and
one snapshot backing no AMI (identifier snap-0b2, source volume vol-0c3); no instances and
no launch templates. -/
def orphanCloud : Cloud :=
  Cloud.ok "123456789012" [] []
    [{ imageId := "ami-0a1", name := "nightly-build", snapshotIds := [] }]
    [{ snapshotId := "snap-0b2", volumeId := "vol-0c3", tags := [] }]

/-- A provider in which the running instance I1 uses AMI A1, snapshot S1 backs A1, and the
owned snapshot S9, which backs no AMI, records a source volume whose identifier is the
string S1. -/
def collidingCloud : Cloud :=
  Cloud.ok "123456789012" scenarioReservations []
    [{ imageId := "A1", name := "image-one", snapshotIds := ["S1"] }]
    [{ snapshotId := "S1", volumeId := "V1", tags := [] },
     { snapshotId := "S9", volumeId := "S1", tags := [] }]

/-- A provider that owns no AMI and no snapshot. -/
def emptyCloud : Cloud := Cloud.ok "123456789012" [] [] [] []

/-- The last chunk written by lines 208-216 when nothing is executed. -/
def closingLine (dryRun : Bool) : Chunk :=
  if dryRun then .text "dry run only -- nothing deleted\n" else .text "nothing to delete\n"

/-! ## Facts about Go maps -/

namespace GoMap

variable {V : Type}

theorem get?_set (m : GoMap V) (k : String) (v : V) (a : String) :
    (m.set k v).get? a = if k = a then some v else m.get? a := by
  induction m with
  | nil => simp [set, get?]
  | cons e rest ih =>
    obtain ⟨k1, v1⟩ := e
    by_cases h1 : k1 = k
    · subst h1
      by_cases h2 : k1 = a <;> simp [set, get?, h2]
    · by_cases h2 : k1 = a
      · subst h2
        have h3 : ¬ k = k1 := fun h => h1 h.symm
        simp [set, get?, h1, h3]
      · simp [set, get?, h1, h2, ih]

theorem mem_keys_iff (m : GoMap V) (a : String) : a ∈ m.keys ↔ m.get? a ≠ none := by
  induction m with
  | nil => simp [keys, get?]
  | cons e rest ih =>
    obtain ⟨k1, v1⟩ := e
    by_cases h : k1 = a
    · simp [keys, get?, h]
    · have h2 : ¬ a = k1 := fun h3 => h h3.symm
      have ih2 : a ∈ List.map Prod.fst rest ↔ get? rest a ≠ none := ih
      simp only [keys, get?, h, List.map_cons, List.mem_cons, h2, false_or, if_false]
      exact ih2

theorem mem_keys_set (m : GoMap V) (k : String) (v : V) (a : String) :
    a ∈ (m.set k v).keys ↔ a = k ∨ a ∈ m.keys := by
  rw [mem_keys_iff, mem_keys_iff, get?_set]
  by_cases h : k = a
  · simp [h]
  · have h2 : ¬ a = k := fun h3 => h h3.symm
    simp [h, h2]

theorem nodup_keys_set (m : GoMap V) (k : String) (v : V) (h : m.keys.Nodup) :
    (m.set k v).keys.Nodup := by
  induction m with
  | nil => simp [set, keys]
  | cons e rest ih =>
    obtain ⟨k1, v1⟩ := e
    have hn : k1 ∉ keys rest ∧ (keys rest).Nodup := by simpa [keys] using h
    by_cases h1 : k1 = k
    · simpa [set, h1, keys] using h
    · have h3 : k1 ∉ (set rest k v).keys := by
        rw [mem_keys_set]
        simp [h1, hn.1]
      have h4 := ih hn.2
      simp only [set, h1, if_false, keys, List.map_cons, List.nodup_cons]
      exact ⟨h3, h4⟩

theorem get?_delete (m : GoMap V) (k a : String) :
    (m.delete k).get? a = if k = a then none else m.get? a := by
  induction m with
  | nil => simp [delete, get?]
  | cons e rest ih =>
    obtain ⟨k1, v1⟩ := e
    by_cases h1 : k1 = k
    · have hd : delete ((k1, v1) :: rest) k = delete rest k := by simp [delete, h1]
      rw [hd, ih]
      by_cases h2 : k = a
      · simp [h2]
      · have h3 : ¬ k1 = a := by rw [h1]; exact h2
        simp [get?, h2, h3]
    · have hd : delete ((k1, v1) :: rest) k = (k1, v1) :: delete rest k := by simp [delete, h1]
      rw [hd]
      by_cases h2 : k1 = a
      · have h3 : ¬ k = a := by rw [← h2]; exact fun h => h1 h.symm
        simp [get?, h2, h3]
      · simp [get?, h2, ih]

theorem deleteAll_eq_filter (m : GoMap V) (ks : List String) :
    m.deleteAll ks = m.filter (fun e => decide (e.1 ∉ ks)) := by
  induction ks generalizing m with
  | nil => simp [deleteAll]
  | cons k rest ih =>
    have h := ih (m.delete k)
    simp only [deleteAll, List.foldl_cons] at h ⊢
    rw [h, delete, List.filter_filter]
    congr 1
    funext e
    by_cases h1 : e.1 = k <;> simp [h1]

theorem get?_deleteAll (m : GoMap V) (ks : List String) (a : String) :
    (m.deleteAll ks).get? a = if a ∈ ks then none else m.get? a := by
  induction ks generalizing m with
  | nil => simp [deleteAll]
  | cons k rest ih =>
    have h := ih (m.delete k)
    simp only [deleteAll, List.foldl_cons] at h ⊢
    rw [h, get?_delete]
    by_cases h1 : a ∈ rest
    · simp [h1]
    · by_cases h2 : k = a
      · simp [h2]
      · have h3 : ¬ a = k := fun h => h2 h.symm
        simp [h1, h2, h3]

theorem mem_keys_deleteAll (m : GoMap V) (ks : List String) (a : String) :
    a ∈ (m.deleteAll ks).keys ↔ a ∈ m.keys ∧ a ∉ ks := by
  rw [mem_keys_iff, mem_keys_iff, get?_deleteAll]
  by_cases h : a ∈ ks <;> simp [h]

theorem nodup_keys_deleteAll (m : GoMap V) (ks : List String) (h : m.keys.Nodup) :
    (m.deleteAll ks).keys.Nodup := by
  rw [deleteAll_eq_filter]
  exact (List.filter_sublist m).map Prod.fst |>.nodup h

/-- The subtraction loop does not depend on the order in which the keys are walked. -/
theorem deleteAll_perm (m : GoMap V) (ks ks2 : List String) (h : ks.Perm ks2) :
    m.deleteAll ks = m.deleteAll ks2 := by
  rw [deleteAll_eq_filter, deleteAll_eq_filter]
  congr 1
  funext e
  simp [h.mem_iff]

end GoMap

/-! ## Facts about the instance pass -/

theorem instanceStep_knownAMIs (verbose : Bool) (st : InstanceState) (i : Instance) :
    (instanceStep verbose st i).knownAMIs =
      if holdsImage i.stateCode then
        st.knownAMIs.set i.imageId
          (i.volumeIds.foldl (volumeStep verbose i.instanceId)
            { usedVols := [], knownVols := st.knownVols,
              out := st.out ++ whenVerbose verbose
                [.text ("   " ++ i.instanceId ++ ": ami = " ++ i.imageId ++ "\n")] }).usedVols
      else st.knownAMIs := by
  unfold instanceStep
  by_cases h : holdsImage i.stateCode = true <;> simp [h]

theorem mem_keys_instanceStep (verbose : Bool) (st : InstanceState) (i : Instance) (a : String) :
    a ∈ (instanceStep verbose st i).knownAMIs.keys ↔
      a ∈ st.knownAMIs.keys ∨ (holdsImage i.stateCode = true ∧ i.imageId = a) := by
  rw [instanceStep_knownAMIs]
  by_cases h : holdsImage i.stateCode = true
  · simp only [h, if_true, GoMap.mem_keys_set, true_and]
    constructor
    · rintro (h1 | h1)
      · exact Or.inr h1.symm
      · exact Or.inl h1
    · rintro (h1 | h1)
      · exact Or.inr h1
      · exact Or.inl h1.symm
  · simp [h]

theorem mem_keys_instances (verbose : Bool) (is : List Instance) (st : InstanceState)
    (a : String) :
    a ∈ (is.foldl (instanceStep verbose) st).knownAMIs.keys ↔
      a ∈ st.knownAMIs.keys ∨ ∃ i ∈ is, holdsImage i.stateCode = true ∧ i.imageId = a := by
  induction is generalizing st with
  | nil => simp
  | cons i rest ih =>
    rw [List.foldl_cons, ih, mem_keys_instanceStep]
    constructor
    · rintro ((h | h) | ⟨j, hj, h⟩)
      · exact Or.inl h
      · exact Or.inr ⟨i, List.mem_cons_self _ _, h⟩
      · exact Or.inr ⟨j, List.mem_cons_of_mem _ hj, h⟩
    · rintro (h | ⟨j, hj, h⟩)
      · exact Or.inl (Or.inl h)
      · rcases List.mem_cons.1 hj with hj | hj
        · subst hj
          exact Or.inl (Or.inr h)
        · exact Or.inr ⟨j, hj, h⟩

theorem mem_keys_reservationStep (verbose : Bool) (st : InstanceState) (r : Reservation)
    (a : String) :
    a ∈ (reservationStep verbose st r).knownAMIs.keys ↔
      a ∈ st.knownAMIs.keys ∨ ∃ i ∈ r.instances, holdsImage i.stateCode = true ∧ i.imageId = a := by
  unfold reservationStep
  simp only [mem_keys_instances]

theorem mem_keys_reservations (verbose : Bool) (rs : List Reservation) (st : InstanceState)
    (a : String) :
    a ∈ (rs.foldl (reservationStep verbose) st).knownAMIs.keys ↔
      a ∈ st.knownAMIs.keys ∨
        ∃ r ∈ rs, ∃ i ∈ r.instances, holdsImage i.stateCode = true ∧ i.imageId = a := by
  induction rs generalizing st with
  | nil => simp
  | cons r rest ih =>
    rw [List.foldl_cons, ih, mem_keys_reservationStep]
    constructor
    · rintro ((h | h) | ⟨q, hq, h⟩)
      · exact Or.inl h
      · exact Or.inr ⟨r, List.mem_cons_self _ _, h⟩
      · exact Or.inr ⟨q, List.mem_cons_of_mem _ hq, h⟩
    · rintro (h | ⟨q, hq, h⟩)
      · exact Or.inl (Or.inl h)
      · rcases List.mem_cons.1 hq with hq | hq
        · subst hq
          exact Or.inl (Or.inr h)
        · exact Or.inr ⟨q, hq, h⟩

/-- The keys of `knownAMIs` after the instance pass are the AMIs of the instances that pass
the state test. -/
theorem mem_keys_instancePass (verbose : Bool) (rs : List Reservation) (a : String) :
    a ∈ (instancePass verbose rs).knownAMIs.keys ↔
      ∃ r ∈ rs, ∃ i ∈ r.instances, holdsImage i.stateCode = true ∧ i.imageId = a := by
  unfold instancePass
  rw [mem_keys_reservations]
  simp [GoMap.keys]

theorem holdsImage_iff (c : Int) : holdsImage c = true ↔ c % 256 ≠ 32 ∧ c % 256 ≠ 48 := by
  simp [holdsImage]

/-- For a non-negative state code the remainder modulo 256 used by `holdsImage` is the
bitwise mask with `0xff`. -/
theorem holdsImage_mask (n : Nat) :
    holdsImage (n : Int) = (decide (n &&& 0xff ≠ 32) && decide (n &&& 0xff ≠ 48)) := by
  have h : n &&& 0xff = n % 256 := Nat.and_pow_two_sub_one_eq_mod n 8
  rw [h]
  unfold holdsImage
  have h32 : ((n : Int) % 256 ≠ 32) ↔ (n % 256 ≠ 32) := by omega
  have h48 : ((n : Int) % 256 ≠ 48) ↔ (n % 256 ≠ 48) := by omega
  simp only [h32, h48]

/-! ## Facts about the launch-template pass -/

theorem templateStep_knownAMIs (verbose : Bool) (st : TemplateState) (p : LaunchTemplateVersion) :
    (templateStep verbose st p).knownAMIs =
      st.knownAMIs.set p.imageId
        (((st.knownAMIs.get? p.imageId).getD []) ++ [p.launchTemplateName]) := rfl

theorem get?_templateFold (verbose : Bool) (ps : List LaunchTemplateVersion) (st : TemplateState)
    (a : String) :
    (ps.foldl (templateStep verbose) st).knownAMIs.get? a =
      if templateNames ps a = [] then st.knownAMIs.get? a
      else some (((st.knownAMIs.get? a).getD []) ++ templateNames ps a) := by
  induction ps generalizing st with
  | nil => simp [templateNames]
  | cons p rest ih =>
    rw [List.foldl_cons, ih, templateStep_knownAMIs, GoMap.get?_set]
    by_cases h : p.imageId = a
    · subst h
      by_cases h2 : templateNames rest p.imageId = []
      · simp [templateNames] at h2
        simp [templateNames, h2]
      · simp only [templateNames] at h2
        simp [templateNames, h2]
    · simp [templateNames, h]

/-- The value of every key after the launch-template pass. -/
theorem get?_templatePass (verbose : Bool) (ps : List LaunchTemplateVersion)
    (m : GoMap (List String)) (a : String) :
    (templatePass verbose ps m).knownAMIs.get? a =
      if templateNames ps a = [] then m.get? a
      else some (((m.get? a).getD []) ++ templateNames ps a) := by
  unfold templatePass
  rw [get?_templateFold]

theorem templateNames_eq_nil_iff (ps : List LaunchTemplateVersion) (a : String) :
    templateNames ps a = [] ↔ ∀ p ∈ ps, p.imageId ≠ a := by
  simp [templateNames, List.filter_eq_nil_iff]

theorem mem_keys_templatePass (verbose : Bool) (ps : List LaunchTemplateVersion)
    (m : GoMap (List String)) (a : String) :
    a ∈ (templatePass verbose ps m).knownAMIs.keys ↔ a ∈ m.keys ∨ ∃ p ∈ ps, p.imageId = a := by
  rw [GoMap.mem_keys_iff, GoMap.mem_keys_iff, get?_templatePass]
  by_cases h : templateNames ps a = []
  · have h2 := (templateNames_eq_nil_iff ps a).1 h
    simp only [h, if_true]
    constructor
    · exact fun h3 => Or.inl h3
    · rintro (h3 | ⟨p, hp, h3⟩)
      · exact h3
      · exact absurd h3 (h2 p hp)
  · have h2 : ∃ p ∈ ps, p.imageId = a := by
      by_contra hc
      exact h ((templateNames_eq_nil_iff ps a).2 (fun p hp h3 => hc ⟨p, hp, h3⟩))
    simp [h, h2]

/-- The keys of the reachable set. -/
theorem mem_keys_knownAMIs (verbose : Bool) (rs : List Reservation)
    (ps : List LaunchTemplateVersion) (a : String) :
    a ∈ (knownAMIs verbose rs ps).keys ↔
      (∃ r ∈ rs, ∃ i ∈ r.instances, holdsImage i.stateCode = true ∧ i.imageId = a) ∨
        ∃ p ∈ ps, p.imageId = a := by
  unfold knownAMIs
  rw [mem_keys_templatePass, mem_keys_instancePass]

/-! ## Facts about the image pass -/

theorem snapshotRefFold_allAMIs (verbose : Bool) (imageId : String) (ss : List String)
    (st : ImageState) :
    (ss.foldl (snapshotRefStep verbose imageId) st).allAMIs = st.allAMIs := by
  induction ss generalizing st with
  | nil => rfl
  | cons x rest ih => rw [List.foldl_cons, ih]; rfl

theorem mem_keys_snapshotRefFold (verbose : Bool) (imageId : String) (ss : List String)
    (st : ImageState) (s : String) :
    s ∈ (ss.foldl (snapshotRefStep verbose imageId) st).knownSnaps.keys ↔
      s ∈ st.knownSnaps.keys ∨ s ∈ ss := by
  induction ss generalizing st with
  | nil => simp
  | cons x rest ih =>
    rw [List.foldl_cons, ih]
    simp only [snapshotRefStep, GoMap.mem_keys_set, List.mem_cons]
    constructor
    · rintro ((h | h) | h)
      · exact Or.inr (Or.inl h)
      · exact Or.inl h
      · exact Or.inr (Or.inr h)
    · rintro (h | h | h)
      · exact Or.inl (Or.inr h)
      · exact Or.inl (Or.inl h)
      · exact Or.inr h

theorem imageStep_allAMIs (verbose : Bool) (st : ImageState) (a : Image) :
    (imageStep verbose st a).allAMIs = st.allAMIs.set a.imageId a.name := by
  simp only [imageStep, snapshotRefFold_allAMIs]

theorem mem_keys_imageStep_knownSnaps (verbose : Bool) (st : ImageState) (a : Image)
    (s : String) :
    s ∈ (imageStep verbose st a).knownSnaps.keys ↔ s ∈ st.knownSnaps.keys ∨ s ∈ a.snapshotIds := by
  simp only [imageStep, mem_keys_snapshotRefFold]

theorem mem_keys_imageFold_knownSnaps (verbose : Bool) (images : List Image) (st : ImageState)
    (s : String) :
    s ∈ (images.foldl (imageStep verbose) st).knownSnaps.keys ↔
      s ∈ st.knownSnaps.keys ∨ ∃ img ∈ images, s ∈ img.snapshotIds := by
  induction images generalizing st with
  | nil => simp
  | cons x rest ih =>
    rw [List.foldl_cons, ih, mem_keys_imageStep_knownSnaps]
    constructor
    · rintro ((h | h) | ⟨q, hq, h⟩)
      · exact Or.inl h
      · exact Or.inr ⟨x, List.mem_cons_self _ _, h⟩
      · exact Or.inr ⟨q, List.mem_cons_of_mem _ hq, h⟩
    · rintro (h | ⟨q, hq, h⟩)
      · exact Or.inl (Or.inl h)
      · rcases List.mem_cons.1 hq with hq | hq
        · subst hq
          exact Or.inl (Or.inr h)
        · exact Or.inr ⟨q, hq, h⟩

/-- The keys of `knownSnaps` are the snapshots of the block-device mappings of all image
records. -/
theorem mem_keys_knownSnaps (verbose : Bool) (images : List Image) (s : String) :
    s ∈ (imagePass verbose images).knownSnaps.keys ↔ ∃ img ∈ images, s ∈ img.snapshotIds := by
  unfold imagePass
  rw [mem_keys_imageFold_knownSnaps]
  simp [GoMap.keys]

theorem get?_imageFold_allAMIs (verbose : Bool) (images : List Image) (st : ImageState)
    (a : String) :
    (images.foldl (imageStep verbose) st).allAMIs.get? a =
      (((images.filter (fun img => decide (img.imageId = a))).getLast?).map
        (fun img => img.name)).or (st.allAMIs.get? a) := by
  induction images using List.reverseRecOn with
  | nil => simp
  | append_singleton rest x ih =>
    rw [List.foldl_append, List.foldl_cons, List.foldl_nil, imageStep_allAMIs, GoMap.get?_set,
      List.filter_append]
    by_cases h : x.imageId = a
    · simp [h, List.getLast?_append]
    · simp [h, ih]

/-- The name recorded for an AMI is the name of the last image record with that identifier. -/
theorem get?_allAMIs (verbose : Bool) (images : List Image) (a : String) :
    (imagePass verbose images).allAMIs.get? a =
      ((images.filter (fun img => decide (img.imageId = a))).getLast?).map
        (fun img => img.name) := by
  unfold imagePass
  rw [get?_imageFold_allAMIs]
  simp [GoMap.get?]

theorem mem_keys_allAMIs (verbose : Bool) (images : List Image) (a : String) :
    a ∈ (imagePass verbose images).allAMIs.keys ↔ ∃ img ∈ images, img.imageId = a := by
  rw [GoMap.mem_keys_iff, get?_allAMIs]
  simp only [ne_eq, Option.map_eq_none', List.getLast?_eq_none_iff, List.filter_eq_nil_iff,
    decide_eq_true_eq, not_forall, Classical.not_not, exists_prop]

theorem nodup_keys_imageFold (verbose : Bool) (images : List Image) (st : ImageState)
    (h : st.allAMIs.keys.Nodup) :
    (images.foldl (imageStep verbose) st).allAMIs.keys.Nodup := by
  induction images generalizing st with
  | nil => exact h
  | cons x rest ih =>
    rw [List.foldl_cons]
    apply ih
    rw [imageStep_allAMIs]
    exact GoMap.nodup_keys_set _ _ _ h

theorem nodup_keys_allAMIs (verbose : Bool) (images : List Image) :
    (imagePass verbose images).allAMIs.keys.Nodup :=
  nodup_keys_imageFold verbose images _ (by simp [GoMap.keys])

/-! ## Facts about the snapshot pass -/

theorem get?_snapshotFold (verbose : Bool) (snaps : List Snapshot) (st : SnapshotState)
    (s : String) :
    (snaps.foldl (snapshotStep verbose) st).allSnaps.get? s =
      (((snaps.filter (fun sn => decide (sn.snapshotId = s))).getLast?).map
        (fun sn => sn.volumeId)).or (st.allSnaps.get? s) := by
  induction snaps using List.reverseRecOn with
  | nil => simp
  | append_singleton rest x ih =>
    rw [List.foldl_append, List.foldl_cons, List.foldl_nil, List.filter_append]
    simp only [snapshotStep, GoMap.get?_set]
    by_cases h : x.snapshotId = s
    · simp [h, List.getLast?_append]
    · simp [h, ih]

/-- The volume recorded for a snapshot is the volume of the last snapshot record with that
identifier. -/
theorem get?_allSnaps (verbose : Bool) (snaps : List Snapshot) (s : String) :
    (snapshotPass verbose snaps).allSnaps.get? s =
      ((snaps.filter (fun sn => decide (sn.snapshotId = s))).getLast?).map
        (fun sn => sn.volumeId) := by
  unfold snapshotPass
  rw [get?_snapshotFold]
  simp [GoMap.get?]

theorem mem_keys_allSnaps (verbose : Bool) (snaps : List Snapshot) (s : String) :
    s ∈ (snapshotPass verbose snaps).allSnaps.keys ↔ ∃ sn ∈ snaps, sn.snapshotId = s := by
  rw [GoMap.mem_keys_iff, get?_allSnaps]
  simp only [ne_eq, Option.map_eq_none', List.getLast?_eq_none_iff, List.filter_eq_nil_iff,
    decide_eq_true_eq, not_forall, Classical.not_not, exists_prop]

theorem nodup_keys_snapshotFold (verbose : Bool) (snaps : List Snapshot) (st : SnapshotState)
    (h : st.allSnaps.keys.Nodup) :
    (snaps.foldl (snapshotStep verbose) st).allSnaps.keys.Nodup := by
  induction snaps generalizing st with
  | nil => exact h
  | cons x rest ih =>
    rw [List.foldl_cons]
    apply ih
    simp only [snapshotStep]
    exact GoMap.nodup_keys_set _ _ _ h

theorem nodup_keys_allSnaps (verbose : Bool) (snaps : List Snapshot) :
    (snapshotPass verbose snaps).allSnaps.keys.Nodup :=
  nodup_keys_snapshotFold verbose snaps _ (by simp [GoMap.keys])

/-! ## Facts about reporting and execution -/

theorem writes_stdout (out : List Chunk) :
    (out.map Event.stdout).filterMap Event.writeOp? = [] := by
  induction out with
  | nil => rfl
  | cons c rest ih => simp [Event.writeOp?]

theorem writes_deregisterLoop (outcome : Nat → Bool) (n : Nat) (es : List (String × String)) :
    (deregisterLoop outcome n es).filterMap Event.writeOp? =
      es.map (fun e => WriteOp.deregisterImage e.2) := by
  induction es generalizing n with
  | nil => rfl
  | cons e rest ih =>
    obtain ⟨k, a⟩ := e
    rw [deregisterLoop, List.filterMap_append, ih]
    cases outcome n <;> simp [deregisterAttempt, Event.writeOp?]

theorem writes_deleteLoop (outcome : Nat → Bool) (n : Nat) (es : List (String × String)) :
    (deleteLoop outcome n es).filterMap Event.writeOp? =
      es.map (fun e => WriteOp.deleteSnapshot e.2) := by
  induction es generalizing n with
  | nil => rfl
  | cons e rest ih =>
    obtain ⟨k, a⟩ := e
    rw [deleteLoop, List.filterMap_append, ih]
    cases outcome n <;> simp [deleteAttempt, Event.writeOp?]

theorem deregisterLoop_eq_flatMap (outcome : Nat → Bool) (n : Nat) (es : List (String × String)) :
    deregisterLoop outcome n es =
      (es.enumFrom n).flatMap (fun ne => deregisterAttempt (outcome ne.1) ne.2.2) := by
  induction es generalizing n with
  | nil => rfl
  | cons e rest ih =>
    obtain ⟨k, a⟩ := e
    rw [deregisterLoop, ih, List.enumFrom_cons, List.flatMap_cons]

theorem deleteLoop_eq_flatMap (outcome : Nat → Bool) (n : Nat) (es : List (String × String)) :
    deleteLoop outcome n es =
      (es.enumFrom n).flatMap (fun ne => deleteAttempt (outcome ne.1) ne.2.2) := by
  induction es generalizing n with
  | nil => rfl
  | cons e rest ih =>
    obtain ⟨k, a⟩ := e
    rw [deleteLoop, ih, List.enumFrom_cons, List.flatMap_cons]

/-- The write calls of lines 198-236. -/
theorem writes_execute (dryRun verbose : Bool) (knownAMIs : GoMap (List String))
    (knownVols knownSnaps allAMIs allSnaps : GoMap String)
    (amiOrder snapOrder : GoMap String → List (String × String)) (outcome : Nat → Bool) :
    (execute dryRun verbose knownAMIs knownVols knownSnaps allAMIs allSnaps amiOrder snapOrder
        outcome).filterMap Event.writeOp? =
      if dryRun = true ∨ (allAMIs.len = 0 ∧ allSnaps.len = 0) then []
      else (amiOrder allAMIs).map (fun e => WriteOp.deregisterImage e.2) ++
        (snapOrder allSnaps).map (fun e => WriteOp.deleteSnapshot e.2) := by
  have hshown : ∀ b : Bool,
      (if b = true then
          (summary knownAMIs knownVols knownSnaps allAMIs allSnaps).map Event.stdout
        else []).filterMap Event.writeOp? = [] := by
    intro b
    cases b
    · rfl
    · exact writes_stdout _
  unfold execute
  cases dryRun
  · by_cases h : allAMIs.len = 0 ∧ allSnaps.len = 0
    · simp only [h, Bool.false_eq_true, false_or, and_self, if_true, if_false,
        List.filterMap_append, hshown]
      rfl
    · simp only [h, Bool.false_eq_true, false_or, if_false, List.filterMap_append, hshown,
        writes_deregisterLoop, writes_deleteLoop, List.nil_append]
  · simp only [true_or, if_true, List.filterMap_append, hshown]
    rfl

/-- The run of `main` when the configuration load and every query succeed. -/
theorem main_ok (dryRun verbose : Bool) (region accountID : String) (rs : List Reservation)
    (ps : List LaunchTemplateVersion) (images : List Image) (snaps : List Snapshot)
    (amiOrder snapOrder : GoMap String → List (String × String)) (outcome : Nat → Bool) :
    main dryRun verbose region (Cloud.ok accountID rs ps images snaps) amiOrder snapOrder outcome =
      { events :=
          ((whenVerbose verbose
              [.text ("[searching account " ++ accountID ++ " in region " ++ region ++ "]\n" ++
                "\n")] ++
            (instancePass verbose rs).out ++
            (templatePass verbose ps (instancePass verbose rs).knownAMIs).out ++
            (imagePass verbose images).out ++ (snapshotPass verbose snaps).out).map
              Event.stdout) ++
          execute dryRun verbose (knownAMIs verbose rs ps) (instancePass verbose rs).knownVols
            (imagePass verbose images).knownSnaps (garbageAMIs verbose rs ps images)
            (garbageSnaps verbose images snaps) amiOrder snapOrder outcome
        exitCode := 0 } := rfl

/-- Either `main` stops in `log.Fatalf` before the reporting phase, with events that do not
depend on the outcomes of write calls, or every query succeeded. -/
theorem main_cases (dryRun verbose : Bool) (region : String) (cloud : Cloud)
    (amiOrder snapOrder : GoMap String → List (String × String)) :
    (∃ out msg, ∀ outcome,
        main dryRun verbose region cloud amiOrder snapOrder outcome =
          fatal (List.map Event.stdout out) msg) ∨
      ∃ accountID rs ps images snaps, cloud = Cloud.ok accountID rs ps images snaps := by
  obtain ⟨c0, c1, c2, c3, c4, c5⟩ := cloud
  cases c0 with
  | error e => exact Or.inl ⟨[], _, fun _ => rfl⟩
  | ok u =>
  cases c1 with
  | error e => exact Or.inl ⟨[], _, fun _ => rfl⟩
  | ok acc =>
  cases c2 with
  | error e => exact Or.inl ⟨_, _, fun _ => rfl⟩
  | ok rs =>
  cases c3 with
  | error e => exact Or.inl ⟨_, _, fun _ => rfl⟩
  | ok ps =>
  cases c4 with
  | error e => exact Or.inl ⟨_, _, fun _ => rfl⟩
  | ok images =>
  cases c5 with
  | error e => exact Or.inl ⟨_, _, fun _ => rfl⟩
  | ok snaps => exact Or.inr ⟨acc, rs, ps, images, snaps, rfl⟩

theorem writes_fatal (out : List Chunk) (msg : String) :
    (fatal (out.map Event.stdout) msg).writes = [] := by
  simp [fatal, Run.writes, List.filterMap_append, writes_stdout, Event.writeOp?]

/-- The trace of write operations of `main` when every query succeeds. -/
theorem writes_main_ok (dryRun verbose : Bool) (region accountID : String)
    (rs : List Reservation) (ps : List LaunchTemplateVersion) (images : List Image)
    (snaps : List Snapshot) (amiOrder snapOrder : GoMap String → List (String × String))
    (outcome : Nat → Bool) :
    (main dryRun verbose region (Cloud.ok accountID rs ps images snaps) amiOrder snapOrder
        outcome).writes =
      if dryRun = true ∨
          ((garbageAMIs verbose rs ps images).len = 0 ∧ (garbageSnaps verbose images snaps).len = 0)
      then []
      else (amiOrder (garbageAMIs verbose rs ps images)).map
            (fun e => WriteOp.deregisterImage e.2) ++
          (snapOrder (garbageSnaps verbose images snaps)).map
            (fun e => WriteOp.deleteSnapshot e.2) := by
  rw [main_ok, Run.writes]
  simp only [List.filterMap_append, writes_stdout, List.nil_append, writes_execute]

theorem garbageSnaps_keys_aux (verbose : Bool) (images : List Image) (snaps : List Snapshot)
    (s : String) :
    s ∈ (garbageSnaps verbose images snaps).keys ↔
      (∃ sn ∈ snaps, sn.snapshotId = s) ∧ ¬ ∃ img ∈ images, s ∈ img.snapshotIds := by
  unfold garbageSnaps
  rw [GoMap.mem_keys_deleteAll, mem_keys_allSnaps, mem_keys_knownSnaps]

/-! ## The garbage sets -/

/-- C3: the garbage-AMI set is exactly the owned AMI identifiers minus the keys of the
reachable set `knownAMIs`; its keys are pairwise distinct, and every surviving identifier
keeps the name recorded for it by the image pass (the name of the last image record with
that identifier). -/
theorem garbageAMIs_exact (verbose : Bool) (rs : List Reservation)
    (ps : List LaunchTemplateVersion) (images : List Image) (a : String) :
    (a ∈ (garbageAMIs verbose rs ps images).keys ↔
        (∃ img ∈ images, img.imageId = a) ∧ a ∉ (knownAMIs verbose rs ps).keys) ∧
      (garbageAMIs verbose rs ps images).keys.Nodup ∧
      (garbageAMIs verbose rs ps images).get? a =
        (if a ∈ (knownAMIs verbose rs ps).keys then none
          else (imagePass verbose images).allAMIs.get? a) ∧
      (imagePass verbose images).allAMIs.get? a =
        ((images.filter (fun img => decide (img.imageId = a))).getLast?).map
          (fun img => img.name) := by
  refine ⟨?_, ?_, ?_, ?_⟩
  · unfold garbageAMIs
    rw [GoMap.mem_keys_deleteAll, mem_keys_allAMIs]
  · exact GoMap.nodup_keys_deleteAll _ _ (nodup_keys_allAMIs verbose images)
  · unfold garbageAMIs
    rw [GoMap.get?_deleteAll]
  · exact get?_allAMIs verbose images a

/-- C1 (as the code has it): the garbage-snapshot set is exactly the owned snapshot
identifiers minus the snapshots that appear in a block-device mapping of any owned image
record, reachable or not; its keys are pairwise distinct and each keeps its recorded
volume. In the scenario of the specification the garbage-snapshot set is empty. -/
theorem garbageSnaps_exact (verbose : Bool) (images : List Image) (snaps : List Snapshot)
    (s : String) :
    (s ∈ (garbageSnaps verbose images snaps).keys ↔
        (∃ sn ∈ snaps, sn.snapshotId = s) ∧ ¬ ∃ img ∈ images, s ∈ img.snapshotIds) ∧
      (garbageSnaps verbose images snaps).keys.Nodup ∧
      (garbageSnaps verbose images snaps).get? s =
        (if s ∈ (imagePass verbose images).knownSnaps.keys then none
          else (snapshotPass verbose snaps).allSnaps.get? s) ∧
      garbageSnaps verbose scenarioImages scenarioSnapshots = [] := by
  refine ⟨?_, ?_, ?_, ?_⟩
  · unfold garbageSnaps
    rw [GoMap.mem_keys_deleteAll, mem_keys_allSnaps, mem_keys_knownSnaps]
  · exact GoMap.nodup_keys_deleteAll _ _ (nodup_keys_allSnaps verbose snaps)
  · unfold garbageSnaps
    rw [GoMap.get?_deleteAll]
  · cases verbose <;> decide

/-- C1 fails as stated: in the scenario of the specification the reachable set is {A1} and
S2 is an owned snapshot that backs no reachable AMI, yet the garbage-snapshot set computed
by the code is empty, not {S2}. -/
theorem garbageSnaps_scenario_counterexample :
    (knownAMIs false scenarioReservations []).keys = ["A1"] ∧
      (garbageSnaps false scenarioImages scenarioSnapshots).keys ≠ ["S2"] ∧
      ¬ (∀ s : String,
          s ∈ (garbageSnaps false scenarioImages scenarioSnapshots).keys ↔
            ((∃ sn ∈ scenarioSnapshots, sn.snapshotId = s) ∧
              ¬ ∃ img ∈ scenarioImages,
                img.imageId ∈ (knownAMIs false scenarioReservations []).keys ∧
                  s ∈ img.snapshotIds)) := by
  refine ⟨by decide, by decide, ?_⟩
  intro h
  have h1 := (h "S2").2
  have h2 : "S2" ∉ (garbageSnaps false scenarioImages scenarioSnapshots).keys := by decide
  apply h2
  apply h1
  decide

/-- Set-level protection: if an owned image record is a key of the reachable set, every
snapshot of its block-device mappings is absent from the garbage-snapshot set, so no entry
of that set carries the snapshot identifier as its key, and the image itself is absent from
the garbage-AMI set. -/
theorem reachable_image_snapshots_not_garbage (verbose : Bool) (rs : List Reservation)
    (ps : List LaunchTemplateVersion) (images : List Image) (snaps : List Snapshot)
    (img : Image) (himg : img ∈ images)
    (hkey : img.imageId ∈ (knownAMIs verbose rs ps).keys)
    (s : String) (hs : s ∈ img.snapshotIds) :
    s ∉ (garbageSnaps verbose images snaps).keys ∧
      (garbageSnaps verbose images snaps).get? s = none ∧
      (∀ e ∈ garbageSnaps verbose images snaps, e.1 ≠ s) ∧
      img.imageId ∉ (garbageAMIs verbose rs ps images).keys := by
  have h1 : s ∉ (garbageSnaps verbose images snaps).keys := by
    rw [garbageSnaps_keys_aux verbose images snaps s]
    exact fun h => h.2 ⟨img, himg, hs⟩
  refine ⟨h1, ?_, ?_, ?_⟩
  · by_contra hc
    exact h1 ((GoMap.mem_keys_iff _ _).2 hc)
  · intro e he heq
    exact h1 (heq ▸ List.mem_map_of_mem Prod.fst he)
  · unfold garbageAMIs
    rw [GoMap.mem_keys_deleteAll]
    exact fun h => h.2 hkey

/-- The set-level protection in the scenario of the specification: A1 is reachable and S1
backs it. -/
theorem reachable_image_snapshots_not_garbage_scenario :
    "S1" ∉ (garbageSnaps false scenarioImages scenarioSnapshots).keys ∧
      (garbageSnaps false scenarioImages scenarioSnapshots).get? "S1" = none ∧
      (∀ e ∈ garbageSnaps false scenarioImages scenarioSnapshots, e.1 ≠ "S1") ∧
      "A1" ∉ (garbageAMIs false scenarioReservations [] scenarioImages).keys :=
  reachable_image_snapshots_not_garbage false scenarioReservations [] scenarioImages
    scenarioSnapshots { imageId := "A1", name := "image-one", snapshotIds := ["S1"] }
    (by decide) (by decide) "S1" (by decide)

/-- C10 on `collidingCloud`: A1 is a key of the reachable set, S1 is in its block-device
mappings and S1 is absent from the garbage-snapshot set (whose only entry is S9), yet with
dry-run off `main` calls `DeleteSnapshot` with S1, because the delete loop passes the
source volume recorded for S9 and never the identifier S9 itself. -/
theorem protected_snapshot_passed_for_deletion (outcome : Nat → Bool) :
    "A1" ∈ (knownAMIs false scenarioReservations []).keys ∧
      "S1" ∉ (garbageSnaps false
          [{ imageId := "A1", name := "image-one", snapshotIds := ["S1"] }]
          [{ snapshotId := "S1", volumeId := "V1", tags := [] },
           { snapshotId := "S9", volumeId := "S1", tags := [] }]).keys ∧
      garbageSnaps false
          [{ imageId := "A1", name := "image-one", snapshotIds := ["S1"] }]
          [{ snapshotId := "S1", volumeId := "V1", tags := [] },
           { snapshotId := "S9", volumeId := "S1", tags := [] }] = [("S9", "S1")] ∧
      (main false false "us-east-2" collidingCloud id id outcome).writes =
        [WriteOp.deleteSnapshot "S1"] ∧
      WriteOp.deleteSnapshot "S9" ∉
        (main false false "us-east-2" collidingCloud id id outcome).writes := by
  have hw : (main false false "us-east-2" collidingCloud id id outcome).writes =
      [WriteOp.deleteSnapshot "S1"] := by
    unfold collidingCloud
    rw [writes_main_ok]
    decide
  refine ⟨by decide, by decide, by decide, hw, ?_⟩
  rw [hw]; decide

/-! ## The reachable set -/

/-- C4 (as the code has it): the AMI of every instance whose state code has a low byte
other than 32 and 48 is a key of the reachable set; the AMI of an instance whose low byte
is 32 or 48 is not a key of the reachable set unless it is also the AMI of a returned
launch-template version or of another instance whose low byte is neither 32 nor 48; and
the classification depends on the low byte only. -/
theorem instance_reachability (verbose : Bool) (rs : List Reservation)
    (ps : List LaunchTemplateVersion) :
    (∀ r ∈ rs, ∀ i ∈ r.instances, i.stateCode % 256 ≠ 32 → i.stateCode % 256 ≠ 48 →
        i.imageId ∈ (knownAMIs verbose rs ps).keys) ∧
      (∀ r ∈ rs, ∀ i ∈ r.instances, (i.stateCode % 256 = 32 ∨ i.stateCode % 256 = 48) →
        (∀ p ∈ ps, p.imageId ≠ i.imageId) →
        (∀ r2 ∈ rs, ∀ j ∈ r2.instances, j.imageId = i.imageId →
          (j.stateCode % 256 = 32 ∨ j.stateCode % 256 = 48)) →
        i.imageId ∉ (knownAMIs verbose rs ps).keys) ∧
      (∀ c d : Int, c % 256 = d % 256 → holdsImage c = holdsImage d) ∧
      (∀ c k : Int, holdsImage (c + 256 * k) = holdsImage c) := by
  refine ⟨?_, ?_, ?_, ?_⟩
  · intro r hr i hi h1 h2
    rw [mem_keys_knownAMIs]
    exact Or.inl ⟨r, hr, i, hi, (holdsImage_iff _).2 ⟨h1, h2⟩, rfl⟩
  · intro r _ i _ _ hps hrs hmem
    rw [mem_keys_knownAMIs] at hmem
    rcases hmem with ⟨r2, hr2, j, hj, hlive, heq⟩ | ⟨p, hp, heq⟩
    · have h3 := (holdsImage_iff _).1 hlive
      rcases hrs r2 hr2 j hj heq with h4 | h4
      · exact h3.1 h4
      · exact h3.2 h4
    · exact hps p hp heq
  · intro c d h
    simp only [holdsImage, h]
  · intro c k
    simp only [holdsImage, Int.add_mul_emod_self_left]

/-- Witness for C4: in `terminatedReservations` the running instance (code 256 + 16) makes
A1 reachable, while A3, used only by the terminated instance, is not reachable. -/
theorem instance_reachability_witness :
    "A1" ∈ (knownAMIs false terminatedReservations []).keys ∧
      "A3" ∉ (knownAMIs false terminatedReservations []).keys :=
  ⟨(instance_reachability false terminatedReservations []).1
      { reservationId := "R2"
        instances := [{ instanceId := "I2", imageId := "A3", stateCode := 48,
                        stateName := "terminated", volumeIds := ["V3"] },
                      { instanceId := "I1", imageId := "A1", stateCode := 256 + 16,
                        stateName := "running", volumeIds := ["V1"] }] }
      (by decide)
      { instanceId := "I1", imageId := "A1", stateCode := 256 + 16,
        stateName := "running", volumeIds := ["V1"] }
      (by decide) (by decide) (by decide),
    (instance_reachability false terminatedReservations []).2.1
      { reservationId := "R2"
        instances := [{ instanceId := "I2", imageId := "A3", stateCode := 48,
                        stateName := "terminated", volumeIds := ["V3"] },
                      { instanceId := "I1", imageId := "A1", stateCode := 256 + 16,
                        stateName := "running", volumeIds := ["V1"] }] }
      (by decide)
      { instanceId := "I2", imageId := "A3", stateCode := 48,
        stateName := "terminated", volumeIds := ["V3"] }
      (by decide) (by decide) (by decide) (by decide)⟩

/-- C4 fails as stated: the terminated instance I2 (low byte 48) uses AMI A1, no
launch-template version is returned, and A1 is a key of the reachable set all the same,
because the running instance I1 uses it too. -/
theorem instance_reachability_counterexample :
    ¬ (∀ r ∈ sharedImageReservations, ∀ i ∈ r.instances,
        (i.stateCode % 256 = 32 ∨ i.stateCode % 256 = 48) →
        (∀ p ∈ ([] : List LaunchTemplateVersion), p.imageId ≠ i.imageId) →
        i.imageId ∉ (knownAMIs false sharedImageReservations []).keys) := by
  intro h
  have h1 := h
    { reservationId := "R1"
      instances := [{ instanceId := "I1", imageId := "A1", stateCode := 16,
                      stateName := "running", volumeIds := ["V1"] },
                    { instanceId := "I2", imageId := "A1", stateCode := 48,
                      stateName := "terminated", volumeIds := [] }] }
    (by decide)
    { instanceId := "I2", imageId := "A1", stateCode := 48,
      stateName := "terminated", volumeIds := [] }
    (by decide) (by decide) (by simp)
  exact h1 (by decide)

/-- C5: after the launch-template pass, started from any map `m` left by the instance pass,
the AMI of every returned version is a key of the reachable set; its supporting-evidence
list is the list recorded in `m` (empty if there was none) followed by the names of the
versions that reference it, in order, so the name of each version has been appended and
the earlier list is kept in front; keys referenced by no version keep their value. -/
theorem templatePass_merges (verbose : Bool) (ps : List LaunchTemplateVersion)
    (m : GoMap (List String)) :
    (∀ p ∈ ps, p.imageId ∈ (templatePass verbose ps m).knownAMIs.keys) ∧
      (∀ p ∈ ps, ∃ before after : List String,
        (templatePass verbose ps m).knownAMIs.get? p.imageId =
          some (((m.get? p.imageId).getD []) ++ (before ++ p.launchTemplateName :: after))) ∧
      (∀ a : String, (∀ p ∈ ps, p.imageId ≠ a) →
        (templatePass verbose ps m).knownAMIs.get? a = m.get? a) ∧
      (∀ a : String, (templatePass verbose ps m).knownAMIs.get? a =
        if templateNames ps a = [] then m.get? a
        else some (((m.get? a).getD []) ++ templateNames ps a)) ∧
      (∀ a : String, a ∈ m.keys → a ∈ (templatePass verbose ps m).knownAMIs.keys) := by
  refine ⟨?_, ?_, ?_, ?_, ?_⟩
  · intro p hp
    rw [mem_keys_templatePass]
    exact Or.inr ⟨p, hp, rfl⟩
  · intro p hp
    have hmem : p.launchTemplateName ∈ templateNames ps p.imageId := by
      unfold templateNames
      exact List.mem_map.2 ⟨p, List.mem_filter.2 ⟨hp, by simp⟩, rfl⟩
    obtain ⟨before, after, hsplit⟩ := List.append_of_mem hmem
    refine ⟨before, after, ?_⟩
    rw [get?_templatePass, ← hsplit]
    have hne : templateNames ps p.imageId ≠ [] := List.ne_nil_of_mem hmem
    simp [hne]
  · intro a ha
    rw [get?_templatePass]
    simp [(templateNames_eq_nil_iff ps a).2 ha]
  · intro a
    exact get?_templatePass verbose ps m a
  · intro a ha
    rw [mem_keys_templatePass]
    exact Or.inl ha

/-- Witness for C5: the instance pass recorded [V1] for A1 and [V9] for A9; the two
versions named web are appended to the list of A1, A4 appears, A9 is unchanged. -/
theorem templatePass_merges_witness :
    "A1" ∈ (templatePass false sampleTemplates [("A1", ["V1"]), ("A9", ["V9"])]).knownAMIs.keys ∧
      (templatePass false sampleTemplates [("A1", ["V1"]), ("A9", ["V9"])]).knownAMIs.get? "A9" =
        some ["V9"] ∧
      (templatePass false sampleTemplates [("A1", ["V1"]), ("A9", ["V9"])]).knownAMIs.get? "A1" =
        some ["V1", "web", "web"] :=
  ⟨(templatePass_merges false sampleTemplates [("A1", ["V1"]), ("A9", ["V9"])]).1
      { launchTemplateId := "lt-1", launchTemplateName := "web", imageId := "A1" } (by decide),
    (templatePass_merges false sampleTemplates [("A1", ["V1"]), ("A9", ["V9"])]).2.2.1 "A9"
      (by decide),
    ((templatePass_merges false sampleTemplates [("A1", ["V1"]), ("A9", ["V9"])]).2.2.2.1
      "A1").trans (by decide)⟩

/-! ## Reporting and execution -/

/-- C6: in dry-run mode the trace of write operations of `main` is empty, whatever the
provider returns, whatever `verbose` is. -/
theorem dryRun_no_writes (verbose : Bool) (region : String) (cloud : Cloud)
    (amiOrder snapOrder : GoMap String → List (String × String)) (outcome : Nat → Bool) :
    (main true verbose region cloud amiOrder snapOrder outcome).writes = [] ∧
      ∀ e ∈ (main true verbose region cloud amiOrder snapOrder outcome).events,
        (∀ a, e ≠ Event.deregisterImage a) ∧ (∀ s, e ≠ Event.deleteSnapshot s) := by
  have hw : (main true verbose region cloud amiOrder snapOrder outcome).writes = [] := by
    rcases main_cases true verbose region cloud amiOrder snapOrder with
      ⟨out, msg, h⟩ | ⟨acc, rs, ps, images, snaps, h⟩
    · rw [h outcome, writes_fatal]
    · subst h
      rw [writes_main_ok]
      simp
  refine ⟨hw, ?_⟩
  intro e he
  have hnone : Event.writeOp? e = none := by
    by_contra hc
    obtain ⟨w, hw2⟩ := Option.ne_none_iff_exists.1 hc
    have : w ∈ (main true verbose region cloud amiOrder snapOrder outcome).writes :=
      List.mem_filterMap.2 ⟨e, he, hw2.symm⟩
    rw [hw] at this
    exact List.not_mem_nil _ this
  constructor
  · intro a ha
    rw [ha] at hnone
    simp [Event.writeOp?] at hnone
  · intro a ha
    rw [ha] at hnone
    simp [Event.writeOp?] at hnone

/-- C7 (as the code has it): when the account owns no AMI and no snapshot, `main` issues no
write operation and exits with status 0, dry-run or not; the last thing it writes to
standard output is "nothing to delete" when not in dry-run mode and
"dry run only -- nothing deleted" in dry-run mode. -/
theorem empty_inventory (dryRun verbose : Bool) (region accountID : String)
    (rs : List Reservation) (ps : List LaunchTemplateVersion)
    (amiOrder snapOrder : GoMap String → List (String × String)) (outcome : Nat → Bool) :
    (main dryRun verbose region (Cloud.ok accountID rs ps [] []) amiOrder snapOrder
        outcome).writes = [] ∧
      (main dryRun verbose region (Cloud.ok accountID rs ps [] []) amiOrder snapOrder
        outcome).exitCode = 0 ∧
      (main dryRun verbose region (Cloud.ok accountID rs ps [] []) amiOrder snapOrder
        outcome).stdout.getLast? = some (closingLine dryRun) ∧
      (main dryRun verbose region (Cloud.ok accountID rs ps [] []) amiOrder snapOrder
        outcome).logged = [] := by
  have hA : garbageAMIs verbose rs ps [] = [] := by
    simp [garbageAMIs, imagePass, GoMap.deleteAll_eq_filter]
  have hS : garbageSnaps verbose [] [] = [] := by
    simp [garbageSnaps, snapshotPass, GoMap.deleteAll_eq_filter]
  refine ⟨?_, ?_, ?_, ?_⟩
  · rw [writes_main_ok, hA, hS]
    simp [GoMap.len]
  · rw [main_ok]
  · rw [main_ok, hA, hS]
    cases dryRun <;> cases verbose <;>
      simp [Run.stdout, execute, GoMap.len, closingLine, List.filterMap_append,
        List.getLast?_append]
  · rw [main_ok, hA, hS]
    have hout : ∀ out : List Chunk,
        (out.map Event.stdout).filterMap
          (fun e => match e with | .log s => some s | _ => none) = [] := by
      intro out
      induction out with
      | nil => rfl
      | cons c rest ih => simp
    cases dryRun <;> cases verbose <;>
      simp [Run.logged, execute, GoMap.len, List.filterMap_append, hout]

/-- C7 fails as stated: with empty inventories and dry-run on, "nothing to delete" is not
written; the run ends with "dry run only -- nothing deleted". -/
theorem empty_inventory_dryRun_counterexample :
    Chunk.text "nothing to delete\n" ∉
        (main true false "us-east-2" emptyCloud id id (fun _ => true)).stdout ∧
      (main true false "us-east-2" emptyCloud id id (fun _ => true)).stdout =
        [.listMap "known AMIs" [], .stringMap "known vols" [], .stringMap "known snaps" [],
         .text "\n", .stringMap "remaining AMIs" [], .stringMap "remaining snaps" [],
         .text "\n", .text "dry run only -- nothing deleted\n"] := by
  constructor <;> decide

theorem getElem?_deregister_block (l1 l2 : List (String × String)) (i : Nat) (s : String)
    (h : (l1.map (fun e => WriteOp.deregisterImage e.2) ++
          l2.map (fun e => WriteOp.deleteSnapshot e.2))[i]? = some (WriteOp.deleteSnapshot s)) :
    l1.length ≤ i := by
  by_contra hc
  have hlt : i < l1.length := Nat.lt_of_not_le hc
  rw [List.getElem?_append_left (by simpa using hlt), List.getElem?_map] at h
  cases hx : l1[i]? with
  | none => simp [hx] at h
  | some e => simp [hx] at h

theorem getElem?_delete_block (l1 l2 : List (String × String)) (j : Nat) (a : String)
    (h : (l1.map (fun e => WriteOp.deregisterImage e.2) ++
          l2.map (fun e => WriteOp.deleteSnapshot e.2))[j]? = some (WriteOp.deregisterImage a)) :
    j < l1.length := by
  by_contra hc
  have hge : l1.length ≤ j := Nat.le_of_not_lt hc
  rw [List.getElem?_append_right (by simpa using hge), List.getElem?_map] at h
  cases hx : l2[j - (List.map (fun e => WriteOp.deregisterImage e.2) l1).length]? with
  | none => simp [hx] at h
  | some e => simp [hx] at h

theorem map_stdout_shown (verbose : Bool) (out shown : List Chunk) :
    List.map Event.stdout out ++ (if verbose = true then shown.map Event.stdout else []) =
      List.map Event.stdout (out ++ if verbose = true then shown else []) := by
  cases verbose <;> simp

/-- C8: when every query succeeds and dry-run is off, the write calls of `main` are one
`DeregisterImage` per garbage-AMI entry followed by one `DeleteSnapshot` per
garbage-snapshot entry, the same for every assignment of outcomes; the run exits with
status 0; and the events of the run are standard output that does not depend on the
outcomes, followed, entry by entry, by the call and then one report for that call alone:
the line "deregistered ..." / "deleted ..." on standard output if the call succeeded, the
message "failed to deregister AMI ..." / "failed to delete snapshot ..." on the log stream
if it failed. -/
theorem per_item_failures_isolated (verbose : Bool) (region accountID : String)
    (rs : List Reservation) (ps : List LaunchTemplateVersion) (images : List Image)
    (snaps : List Snapshot) (amiOrder snapOrder : GoMap String → List (String × String))
    (hA : ∀ m, (amiOrder m).Perm m) (hS : ∀ m, (snapOrder m).Perm m) :
    (amiOrder (garbageAMIs verbose rs ps images)).Perm (garbageAMIs verbose rs ps images) ∧
      (snapOrder (garbageSnaps verbose images snaps)).Perm (garbageSnaps verbose images snaps) ∧
      ∃ pre : List Chunk, ∀ outcome : Nat → Bool,
        (main false verbose region (Cloud.ok accountID rs ps images snaps) amiOrder snapOrder
            outcome).exitCode = 0 ∧
          (main false verbose region (Cloud.ok accountID rs ps images snaps) amiOrder snapOrder
            outcome).writes =
            (amiOrder (garbageAMIs verbose rs ps images)).map
                (fun e => WriteOp.deregisterImage e.2) ++
              (snapOrder (garbageSnaps verbose images snaps)).map
                (fun e => WriteOp.deleteSnapshot e.2) ∧
          (main false verbose region (Cloud.ok accountID rs ps images snaps) amiOrder snapOrder
            outcome).writes =
            (main false verbose region (Cloud.ok accountID rs ps images snaps) amiOrder snapOrder
              (fun _ => true)).writes ∧
          (main false verbose region (Cloud.ok accountID rs ps images snaps) amiOrder snapOrder
            outcome).events =
            pre.map Event.stdout ++
              (if (garbageAMIs verbose rs ps images).len = 0 ∧
                  (garbageSnaps verbose images snaps).len = 0 then
                [Event.stdout (.text "nothing to delete\n")]
              else
                ((amiOrder (garbageAMIs verbose rs ps images)).enumFrom 0).flatMap
                    (fun ne =>
                      [Event.deregisterImage ne.2.2,
                       if outcome ne.1 = true then
                         Event.stdout (.text ("deregistered " ++ ne.2.2 ++ "\n"))
                       else Event.log ("failed to deregister AMI " ++ ne.2.2 ++ "\n")]) ++
                  ((snapOrder (garbageSnaps verbose images snaps)).enumFrom
                      (amiOrder (garbageAMIs verbose rs ps images)).length).flatMap
                    (fun ne =>
                      [Event.deleteSnapshot ne.2.2,
                       if outcome ne.1 = true then
                         Event.stdout (.text ("deleted " ++ ne.2.2 ++ "\n"))
                       else Event.log ("failed to delete snapshot " ++ ne.2.2 ++ "\n")])) := by
  have hw : ∀ outcome : Nat → Bool,
      (main false verbose region (Cloud.ok accountID rs ps images snaps) amiOrder snapOrder
          outcome).writes =
        (amiOrder (garbageAMIs verbose rs ps images)).map
            (fun e => WriteOp.deregisterImage e.2) ++
          (snapOrder (garbageSnaps verbose images snaps)).map
            (fun e => WriteOp.deleteSnapshot e.2) := by
    intro outcome
    rw [writes_main_ok]
    by_cases h : (garbageAMIs verbose rs ps images).len = 0 ∧
        (garbageSnaps verbose images snaps).len = 0
    · have h1 : garbageAMIs verbose rs ps images = [] := List.length_eq_zero.1 h.1
      have h2 : garbageSnaps verbose images snaps = [] := List.length_eq_zero.1 h.2
      have h3 : amiOrder [] = [] := List.Perm.eq_nil (hA [])
      have h4 : snapOrder [] = [] := List.Perm.eq_nil (hS [])
      simp [h1, h2, h3, h4]
    · simp [h]
  refine ⟨hA _, hS _, ?_⟩
  refine ⟨(whenVerbose verbose
        [.text ("[searching account " ++ accountID ++ " in region " ++ region ++ "]\n" ++
          "\n")] ++
      (instancePass verbose rs).out ++
      (templatePass verbose ps (instancePass verbose rs).knownAMIs).out ++
      (imagePass verbose images).out ++ (snapshotPass verbose snaps).out) ++
    (if verbose = true then
      summary (knownAMIs verbose rs ps) (instancePass verbose rs).knownVols
        (imagePass verbose images).knownSnaps (garbageAMIs verbose rs ps images)
        (garbageSnaps verbose images snaps)
    else []), ?_⟩
  intro outcome
  refine ⟨?_, hw outcome, ?_, ?_⟩
  · rw [main_ok]
  · rw [hw outcome, hw (fun _ => true)]
  · rw [main_ok, ← map_stdout_shown]
    simp only [execute, Bool.or_false, Bool.false_eq_true, if_false, List.append_assoc,
      deregisterLoop_eq_flatMap, deleteLoop_eq_flatMap, deregisterAttempt, deleteAttempt]
    by_cases h : (garbageAMIs verbose rs ps images).len = 0 ∧
        (garbageSnaps verbose images snaps).len = 0
    · simp only [h, and_self, if_true]
    · simp only [h, if_false]

/-- Witness for C8 on `orphanCloud`, the maps walked in their stored order: the two calls
are the same for every assignment of outcomes; when the first call fails and the second
succeeds, the failure is logged after the first call and the second call is still made and
reported as a success; when both succeed, only the first report differs. -/
theorem per_item_failures_isolated_witness :
    (∀ m : GoMap String, (id m).Perm m) ∧
      (∀ outcome : Nat → Bool,
        (main false false "us-east-2" orphanCloud id id outcome).writes =
          [WriteOp.deregisterImage "nightly-build", WriteOp.deleteSnapshot "vol-0c3"]) ∧
      main false false "us-east-2" orphanCloud id id (fun n => decide (n ≠ 0)) =
        { events :=
            [Event.deregisterImage "nightly-build",
             Event.log "failed to deregister AMI nightly-build\n",
             Event.deleteSnapshot "vol-0c3",
             Event.stdout (.text "deleted vol-0c3\n")]
          exitCode := 0 } ∧
      main false false "us-east-2" orphanCloud id id (fun _ => true) =
        { events :=
            [Event.deregisterImage "nightly-build",
             Event.stdout (.text "deregistered nightly-build\n"),
             Event.deleteSnapshot "vol-0c3",
             Event.stdout (.text "deleted vol-0c3\n")]
          exitCode := 0 } := by
  refine ⟨fun m => List.Perm.refl m, fun outcome => ?_, by decide, by decide⟩
  obtain ⟨pre, h⟩ :=
    (per_item_failures_isolated false "us-east-2" "123456789012" [] []
      [{ imageId := "ami-0a1", name := "nightly-build", snapshotIds := [] }]
      [{ snapshotId := "snap-0b2", volumeId := "vol-0c3", tags := [] }] id id
      (fun m => List.Perm.refl m) (fun m => List.Perm.refl m)).2.2
  exact (h outcome).2.1.trans (by decide)

/-- C9: in a run of `main` with dry-run off, every `DeregisterImage` call comes before
every `DeleteSnapshot` call in the trace of write operations, whatever the provider
returns, whatever the order in which the maps are walked and whatever the outcomes. -/
theorem deregister_before_delete (verbose : Bool) (region : String) (cloud : Cloud)
    (amiOrder snapOrder : GoMap String → List (String × String)) (outcome : Nat → Bool)
    (i j : Nat) (a s : String)
    (hi : (main false verbose region cloud amiOrder snapOrder outcome).writes[i]? =
      some (WriteOp.deleteSnapshot s))
    (hj : (main false verbose region cloud amiOrder snapOrder outcome).writes[j]? =
      some (WriteOp.deregisterImage a)) :
    j < i := by
  rcases main_cases false verbose region cloud amiOrder snapOrder with
    ⟨out, msg, h⟩ | ⟨acc, rs, ps, images, snaps, h⟩
  · rw [h outcome, writes_fatal] at hi
    simp at hi
  · subst h
    rw [writes_main_ok] at hi hj
    by_cases hz : (garbageAMIs verbose rs ps images).len = 0 ∧
        (garbageSnaps verbose images snaps).len = 0
    · simp [hz] at hi
    · simp only [Bool.false_eq_true, false_or, hz, if_false] at hi hj
      exact Nat.lt_of_lt_of_le (getElem?_delete_block _ _ j a hj)
        (getElem?_deregister_block _ _ i s hi)

/-- Witness for C9 on `orphanCloud`: the deregistration is call 0, the deletion call 1. -/
theorem deregister_before_delete_witness :
    (main false false "us-east-2" orphanCloud id id (fun _ => false)).writes[1]? =
        some (WriteOp.deleteSnapshot "vol-0c3") ∧
      (main false false "us-east-2" orphanCloud id id (fun _ => false)).writes[0]? =
        some (WriteOp.deregisterImage "nightly-build") ∧
      0 < 1 :=
  ⟨by decide, by decide,
    deregister_before_delete false "us-east-2" orphanCloud id id (fun _ => false) 1 0
      "nightly-build" "vol-0c3" (by decide) (by decide)⟩

/-- C2 on `orphanCloud`: the garbage AMI is ami-0a1 and the garbage snapshot is snap-0b2,
but `DeregisterImage` receives the AMI name nightly-build and `DeleteSnapshot` receives the
volume identifier vol-0c3, because both loops walk the values of the maps. -/
theorem executor_passes_values (outcome : Nat → Bool) :
    (garbageAMIs false [] []
        [{ imageId := "ami-0a1", name := "nightly-build", snapshotIds := [] }]).keys =
        ["ami-0a1"] ∧
      (garbageSnaps false
        [{ imageId := "ami-0a1", name := "nightly-build", snapshotIds := [] }]
        [{ snapshotId := "snap-0b2", volumeId := "vol-0c3", tags := [] }]).keys =
        ["snap-0b2"] ∧
      (main false false "us-east-2" orphanCloud id id outcome).writes =
        [WriteOp.deregisterImage "nightly-build", WriteOp.deleteSnapshot "vol-0c3"] ∧
      WriteOp.deregisterImage "ami-0a1" ∉
        (main false false "us-east-2" orphanCloud id id outcome).writes ∧
      WriteOp.deleteSnapshot "snap-0b2" ∉
        (main false false "us-east-2" orphanCloud id id outcome).writes := by
  have hw : (main false false "us-east-2" orphanCloud id id outcome).writes =
      [WriteOp.deregisterImage "nightly-build", WriteOp.deleteSnapshot "vol-0c3"] := by
    unfold orphanCloud
    rw [writes_main_ok]
    decide
  refine ⟨by decide, by decide, hw, ?_, ?_⟩
  · rw [hw]; decide
  · rw [hw]; decide

end AmiCleaner
